import Mathlib

/-!
Verification development for the Flux-Type effect-pipeline repository.

The definitions below are a shallow embedding of the algorithmic core of the
repository: the `TypeSettings` parameter record (types.ts), the SVG
filter-stage compiler `renderFilterContent` and the metaball anchor
derivation (components/Artboard.tsx), the settings merge `updateSettings`
(App.tsx), and the failure behaviour of `generateStyleFromPrompt`
(geminiService). Numeric parameter fields are modelled as rationals where the
code only stores and compares them, and the pseudo-random anchor math is
modelled over the reals since it goes through `Math.sin`.
-/

namespace TypeGen

/-- The closed set of typeface names from the `FontFamily` enum in types.ts. -/
inductive FontFamily
  | inter
  | spaceGrotesk
  | syne
  | rubikMonoOne
  | oswald
  | playfairDisplay
  | lobster
  | cinzel
  | righteous
  | timesNewRoman
  | courierNew
  deriving DecidableEq, Repr

/-- The morphology operator: dilate or erode. -/
inductive MorphOperator
  | dilate
  | erode
  deriving DecidableEq, Repr

/-- The noise kind for the turbulence stage. -/
inductive NoiseType
  | turbulence
  | fractalNoise
  deriving DecidableEq, Repr

/-- The material branch selector. -/
inductive TextureMode
  | solid
  | chrome
  | glass
  | neon
  deriving DecidableEq, Repr

/-- The flat parameter record `TypeSettings` from types.ts. -/
structure TypeSettings where
  text : String
  fontFamily : FontFamily
  fontSize : ℚ
  letterSpacing : ℚ
  lineHeight : ℚ
  rotation : ℚ
  skewX : ℚ
  skewY : ℚ
  morphRadius : ℚ
  morphOperator : MorphOperator
  distortionX : ℚ
  distortionY : ℚ
  distortionStrength : ℚ
  noiseType : NoiseType
  noiseSeed : ℚ
  blurStdDev : ℚ
  contrast : ℚ
  textureMode : TextureMode
  numMetaballs : ℕ
  metaballSpread : ℚ
  metaballSpeed : ℚ
  fillColor : String
  strokeColor : String
  strokeWidth : ℚ
  showFill : Bool
  showStroke : Bool
  backgroundColor : String
  deriving DecidableEq, Repr

/-- The DEFAULT_SETTINGS record from types.ts. -/
def DEFAULT_SETTINGS : TypeSettings :=
  { text := "FLUX\nTYPE"
  , fontFamily := FontFamily.syne
  , fontSize := 120
  , letterSpacing := 0
  , lineHeight := 0.9
  , rotation := 0
  , skewX := 0
  , skewY := 0
  , morphRadius := 0
  , morphOperator := MorphOperator.dilate
  , distortionX := 0.02
  , distortionY := 0.04
  , distortionStrength := 30
  , noiseType := NoiseType.turbulence
  , noiseSeed := 1
  , blurStdDev := 0
  , contrast := 1
  , textureMode := TextureMode.solid
  , numMetaballs := 5
  , metaballSpread := 40
  , metaballSpeed := 0.2
  , fillColor := "#FFFFFF"
  , strokeColor := "#FF0055"
  , strokeWidth := 2
  , showFill := true
  , showStroke := false
  , backgroundColor := "#000000" }

/-- A node of the compiled filter graph: one SVG filter primitive as emitted
by `renderFilterContent` in components/Artboard.tsx. Stages that carry no
`result` attribute in the source use `none`. -/
inductive FilterStage
  | feMorphology (operator : MorphOperator) (radius : ℚ) (result : String)
  | feTurbulence (noiseKind : NoiseType) (baseFrequencyX baseFrequencyY : ℚ)
      (numOctaves : ℕ) (seed : ℚ) (result : String)
  | feDisplacementMap (inShape inNoise : String) (scale : ℚ)
      (xChannelSelector yChannelSelector : String) (result : String)
  | feGaussianBlur (inName : String) (stdDeviation : ℚ) (result : String)
  | feColorMatrix (inName : String) (values : List ℚ) (result : String)
  | feSpecularLighting (inName : String)
      (surfaceScale specularConstant specularExponent : ℚ)
      (lightingColor : String) (lightX lightY lightZ : ℚ) (result : String)
  | feComposite (inA inB : String) (operator : String)
      (ks : Option (ℚ × ℚ × ℚ × ℚ)) (result : Option String)
  | feMerge (inputs : List String)
  deriving DecidableEq, Repr

/-- The 4x5 color-matrix entries built from `contrast` in Artboard.tsx
(`colorMatrixValues`): identity rows for R, G, B, and an affine alpha row
with gain `contrast` and offset `-(contrast * 0.5)`. -/
def colorMatrixValues (contrast : ℚ) : List ℚ :=
  [ 1, 0, 0, 0, 0
  , 0, 1, 0, 0, 0
  , 0, 0, 1, 0, 0
  , 0, 0, 0, contrast, -(contrast * 0.5) ]

/-- Apply a 4x5 feColorMatrix, given row-major as a 20-entry list, to an
(r, g, b, a) pixel under the standard SVG feColorMatrix semantics: each
output channel is the dot product of the corresponding row with the vector
(r, g, b, a, 1). A list of any other length is treated as the identity. -/
def applyColorMatrix (m : List ℚ) (r g b a : ℚ) : ℚ × ℚ × ℚ × ℚ :=
  match m with
  | [m00, m01, m02, m03, m04,
     m10, m11, m12, m13, m14,
     m20, m21, m22, m23, m24,
     m30, m31, m32, m33, m34] =>
      (m00 * r + m01 * g + m02 * b + m03 * a + m04,
       m10 * r + m11 * g + m12 * b + m13 * a + m14,
       m20 * r + m21 * g + m22 * b + m23 * a + m24,
       m30 * r + m31 * g + m32 * b + m33 * a + m34)
  | _ => (r, g, b, a)

/-- The material branch of the filter (Stage 3 of `renderFilterContent`),
selected by `textureMode` (the only settings field this part of the JSX
reads). Literal constants are copied from the JSX. -/
def materialStages (mode : TextureMode) : List FilterStage :=
  match mode with
  | TextureMode.solid =>
      [ FilterStage.feMerge ["gooShape"] ]
  | TextureMode.chrome =>
      [ FilterStage.feGaussianBlur "gooShape" 2 "bumpMap"
      , FilterStage.feSpecularLighting "bumpMap" 5 1.2 30 "#ffffff"
          (-5000) (-10000) 20000 "specular"
      , FilterStage.feComposite "specular" "gooShape" "in" none (some "specularMasked")
      , FilterStage.feComposite "specularMasked" "gooShape" "arithmetic"
          (some (0, 1, 1, 0)) none ]
  | TextureMode.glass =>
      [ FilterStage.feGaussianBlur "gooShape" 3 "glassBump"
      , FilterStage.feSpecularLighting "glassBump" 5 1.5 40 "#ffffff"
          (-5000) (-10000) 20000 "glassSpecular"
      , FilterStage.feColorMatrix "gooShape"
          [1, 0, 0, 0, 0, 0, 1, 0, 0, 0, 0, 0, 1, 0, 0, 0, 0, 0, 0.4, 0]
          "transparentBase"
      , FilterStage.feComposite "glassSpecular" "gooShape" "in" none (some "glassShine")
      , FilterStage.feComposite "glassShine" "transparentBase" "over" none none ]
  | TextureMode.neon =>
      [ FilterStage.feGaussianBlur "gooShape" 2 "glow1"
      , FilterStage.feGaussianBlur "gooShape" 6 "glow2"
      , FilterStage.feGaussianBlur "gooShape" 12 "glow3"
      , FilterStage.feMerge ["glow3", "glow2", "glow1", "gooShape", "gooShape"] ]

/-- The full compiled filter-stage sequence of `renderFilterContent`:
an optional morphology stage, then turbulence, displacement, blur and
contrast remap, then the material branch. -/
def renderFilterContent (s : TypeSettings) : List FilterStage :=
  (if 0 < s.morphRadius
     then [FilterStage.feMorphology s.morphOperator s.morphRadius "morphed"]
     else [])
  ++ [ FilterStage.feTurbulence s.noiseType s.distortionX s.distortionY 2
         s.noiseSeed "noise"
     , FilterStage.feDisplacementMap
         (if 0 < s.morphRadius then "morphed" else "SourceGraphic")
         "noise" s.distortionStrength "R" "G" "distorted"
     , FilterStage.feGaussianBlur "distorted" s.blurStdDev "blurred"
     , FilterStage.feColorMatrix "blurred" (colorMatrixValues s.contrast) "gooShape" ]
  ++ materialStages s.textureMode

/-- Recognizer for morphology stages. -/
def FilterStage.isMorphology : FilterStage → Bool
  | FilterStage.feMorphology _ _ _ => true
  | _ => false

/-- Recognizer for displacement stages. -/
def FilterStage.isDisplacement : FilterStage → Bool
  | FilterStage.feDisplacementMap _ _ _ _ _ _ => true
  | _ => false

/-- The shape-buffer input of a displacement stage, if any. -/
def FilterStage.shapeInput : FilterStage → Option String
  | FilterStage.feDisplacementMap inShape _ _ _ _ _ => some inShape
  | _ => none

/-- The deterministic scalar pseudo-random generator `pseudoRandom` from
Artboard.tsx: the fractional part of `sin(seed) * 10000`. -/
noncomputable def pseudoRandom (seed : ℝ) : ℝ :=
  Real.sin seed * 10000 - ↑⌊Real.sin seed * 10000⌋

/-- A derived metaball anchor, the `Metaball` record of Artboard.tsx. -/
structure Metaball where
  id : ℕ
  baseX : ℝ
  baseY : ℝ
  r : ℝ
  phase : ℝ
  speed : ℝ

/-- One loop iteration of the `anchors` memo in Artboard.tsx: the anchor
pushed for index `i`. -/
noncomputable def mkBall (spread seed : ℝ) (i : ℕ) : Metaball :=
  let seed1 : ℝ := seed * 100 + i
  let seed2 : ℝ := seed * 200 + i
  let seed3 : ℝ := seed * 300 + i
  let seed4 : ℝ := seed * 400 + i
  let shiftX : ℝ := (pseudoRandom seed1 - 0.5) * spread
  let shiftY : ℝ := (pseudoRandom seed2 - 0.5) * spread
  { id := i
  , baseX := 50 + shiftX
  , baseY := 50 + shiftY
  , r := 20 + pseudoRandom seed3 * 60
  , phase := pseudoRandom seed4 * Real.pi * 2
  , speed := 0.5 + pseudoRandom seed1 * 0.5 }

/-- The `anchors` memo of Artboard.tsx as a pure function: empty when
`numMetaballs` is zero, otherwise the anchors for indices `0..n-1` in order. -/
noncomputable def deriveAnchors (numMetaballs : ℕ) (spread seed : ℝ) : List Metaball :=
  if numMetaballs = 0 then []
  else (List.range numMetaballs).map (mkBall spread seed)

/-- The anchors derived from a settings record. -/
noncomputable def anchorsOf (s : TypeSettings) : List Metaball :=
  deriveAnchors s.numMetaballs (↑s.metaballSpread) (↑s.noiseSeed)

/-- One refresh tick of the animation-loop effect in Artboard.tsx: the effect
returns early (no subscription, clock untouched) when `numMetaballs` or
`metaballSpeed` is zero, otherwise adds `0.01 * metaballSpeed`. -/
def tickClock (s : TypeSettings) (t : ℚ) : ℚ :=
  if s.numMetaballs = 0 ∨ s.metaballSpeed = 0 then t
  else t + 0.01 * s.metaballSpeed

/-- The clock value after `n` simulated refresh ticks, starting from the
initial `useState(0)` value. -/
def clockAfter (s : TypeSettings) : ℕ → ℚ
  | 0 => 0
  | n + 1 => tickClock s (clockAfter s n)

/-- The animated circle center computed in the render loop of Artboard.tsx:
`(baseX + sin(time * speed + phase) * 5, baseY + cos(time * speed + phase) * 5)`. -/
noncomputable def animatedPosition (b : Metaball) (time : ℝ) : ℝ × ℝ :=
  (b.baseX + Real.sin (time * b.speed + b.phase) * 5,
   b.baseY + Real.cos (time * b.speed + b.phase) * 5)

/-- A settings patch with every field optional, as produced by the style
suggestion service. -/
structure PartialSettings where
  text : Option String := none
  fontFamily : Option FontFamily := none
  fontSize : Option ℚ := none
  letterSpacing : Option ℚ := none
  lineHeight : Option ℚ := none
  rotation : Option ℚ := none
  skewX : Option ℚ := none
  skewY : Option ℚ := none
  morphRadius : Option ℚ := none
  morphOperator : Option MorphOperator := none
  distortionX : Option ℚ := none
  distortionY : Option ℚ := none
  distortionStrength : Option ℚ := none
  noiseType : Option NoiseType := none
  noiseSeed : Option ℚ := none
  blurStdDev : Option ℚ := none
  contrast : Option ℚ := none
  textureMode : Option TextureMode := none
  numMetaballs : Option ℕ := none
  metaballSpread : Option ℚ := none
  metaballSpeed : Option ℚ := none
  fillColor : Option String := none
  strokeColor : Option String := none
  strokeWidth : Option ℚ := none
  showFill : Option Bool := none
  showStroke : Option Bool := none
  backgroundColor : Option String := none
  deriving DecidableEq, Repr

/-- The empty patch, the empty object literal the suggestion service returns
on every failure path. -/
def emptyPatch : PartialSettings := {}

/-- The `updateSettings` merge from App.tsx: spread the previous settings,
then overwrite with every field present in the patch. -/
def updateSettings (prev : TypeSettings) (patch : PartialSettings) : TypeSettings :=
  { text := patch.text.getD prev.text
  , fontFamily := patch.fontFamily.getD prev.fontFamily
  , fontSize := patch.fontSize.getD prev.fontSize
  , letterSpacing := patch.letterSpacing.getD prev.letterSpacing
  , lineHeight := patch.lineHeight.getD prev.lineHeight
  , rotation := patch.rotation.getD prev.rotation
  , skewX := patch.skewX.getD prev.skewX
  , skewY := patch.skewY.getD prev.skewY
  , morphRadius := patch.morphRadius.getD prev.morphRadius
  , morphOperator := patch.morphOperator.getD prev.morphOperator
  , distortionX := patch.distortionX.getD prev.distortionX
  , distortionY := patch.distortionY.getD prev.distortionY
  , distortionStrength := patch.distortionStrength.getD prev.distortionStrength
  , noiseType := patch.noiseType.getD prev.noiseType
  , noiseSeed := patch.noiseSeed.getD prev.noiseSeed
  , blurStdDev := patch.blurStdDev.getD prev.blurStdDev
  , contrast := patch.contrast.getD prev.contrast
  , textureMode := patch.textureMode.getD prev.textureMode
  , numMetaballs := patch.numMetaballs.getD prev.numMetaballs
  , metaballSpread := patch.metaballSpread.getD prev.metaballSpread
  , metaballSpeed := patch.metaballSpeed.getD prev.metaballSpeed
  , fillColor := patch.fillColor.getD prev.fillColor
  , strokeColor := patch.strokeColor.getD prev.strokeColor
  , strokeWidth := patch.strokeWidth.getD prev.strokeWidth
  , showFill := patch.showFill.getD prev.showFill
  , showStroke := patch.showStroke.getD prev.showStroke
  , backgroundColor := patch.backgroundColor.getD prev.backgroundColor }

/-- The possible outcomes of the remote style-suggestion call in the gemini
service file: the three guarded failure paths (missing API key, empty
response text, an exception thrown by the request or by JSON parsing) and
the success path carrying the parsed patch. -/
inductive SuggestOutcome
  | missingApiKey
  | emptyResponseText
  | requestThrew
  | parseThrew
  | ok (patch : PartialSettings)
  deriving DecidableEq

/-- Whether an outcome is one of the failure paths. -/
def SuggestOutcome.isFailure : SuggestOutcome → Bool
  | SuggestOutcome.ok _ => false
  | _ => true

/-- The result of `generateStyleFromPrompt` as a function of the call
outcome: every failure path returns the empty patch (the source returns the
empty object literal after logging), and the success path returns the parsed
patch. -/
def generateStyleFromPrompt : SuggestOutcome → PartialSettings
  | SuggestOutcome.missingApiKey => emptyPatch
  | SuggestOutcome.emptyResponseText => emptyPatch
  | SuggestOutcome.requestThrew => emptyPatch
  | SuggestOutcome.parseThrew => emptyPatch
  | SuggestOutcome.ok patch => patch

/-! ## Helper lemmas -/

/-- The generator is the fractional part of `sin(seed) * 10000`. -/
theorem pseudoRandom_eq_fract (seed : ℝ) :
    pseudoRandom seed = Int.fract (Real.sin seed * 10000) := rfl

/-- The generator output is nonnegative. -/
theorem pseudoRandom_nonneg (seed : ℝ) : 0 ≤ pseudoRandom seed := by
  rw [pseudoRandom_eq_fract]
  exact Int.fract_nonneg _

/-- The generator output is below one. -/
theorem pseudoRandom_lt_one (seed : ℝ) : pseudoRandom seed < 1 := by
  rw [pseudoRandom_eq_fract]
  exact Int.fract_lt_one _

/-- No material branch contains a morphology or a displacement stage. -/
theorem materialStages_no_morph_disp (mode : TextureMode) :
    ∀ st ∈ materialStages mode,
      st.isMorphology = false ∧ st.isDisplacement = false := by
  cases mode <;> decide

/-! ## Claim theorems -/

/-- Claim C8: the generator `pseudoRandom` is a pure function of its seed —
repeated applications to the same seed give the same value — and that value
lies in the half-open interval [0, 1). -/
theorem claim_rand_pure_bounded (seed : ℝ) :
    pseudoRandom seed = pseudoRandom seed ∧
    0 ≤ pseudoRandom seed ∧ pseudoRandom seed < 1 :=
  ⟨rfl, pseudoRandom_nonneg seed, pseudoRandom_lt_one seed⟩

/-- Claim C4: every compiled sequence contains the contrast-remap color
matrix stage reading the buffer named blurred and writing the buffer named
gooShape, and that matrix acts as the identity on the R, G, B channels while
sending alpha to contrast * alpha + (-(contrast * 0.5)). -/
theorem claim_contrast_remap (s : TypeSettings) (r g b a : ℚ) :
    FilterStage.feColorMatrix "blurred" (colorMatrixValues s.contrast) "gooShape"
      ∈ renderFilterContent s ∧
    applyColorMatrix (colorMatrixValues s.contrast) r g b a =
      (r, g, b, s.contrast * a + -(s.contrast * 0.5)) := by
  constructor
  · by_cases h : 0 < s.morphRadius <;> simp [renderFilterContent, h]
  · simp [applyColorMatrix, colorMatrixValues]

/-- Claim C9: every failure path of the style-suggestion call returns the
empty patch, and merging that empty patch into any settings record leaves the
record unchanged. -/
theorem claim_suggest_failure_noop (o : SuggestOutcome) (s : TypeSettings)
    (h : o.isFailure = true) :
    generateStyleFromPrompt o = emptyPatch ∧
    updateSettings s (generateStyleFromPrompt o) = s := by
  cases o with
  | missingApiKey => exact ⟨rfl, rfl⟩
  | emptyResponseText => exact ⟨rfl, rfl⟩
  | requestThrew => exact ⟨rfl, rfl⟩
  | parseThrew => exact ⟨rfl, rfl⟩
  | ok p => simp [SuggestOutcome.isFailure] at h

/-- Witness for claim C9 at a concrete failure outcome and the default
settings record. -/
theorem claim_suggest_failure_noop_witness :
    SuggestOutcome.requestThrew.isFailure = true ∧
    generateStyleFromPrompt SuggestOutcome.requestThrew = emptyPatch ∧
    updateSettings DEFAULT_SETTINGS
        (generateStyleFromPrompt SuggestOutcome.requestThrew) = DEFAULT_SETTINGS :=
  ⟨rfl,
   (claim_suggest_failure_noop SuggestOutcome.requestThrew DEFAULT_SETTINGS rfl).1,
   (claim_suggest_failure_noop SuggestOutcome.requestThrew DEFAULT_SETTINGS rfl).2⟩

/-- Claim C6: deriving anchors for count zero gives the empty sequence; for
count n the derivation gives exactly n anchors carrying the indices 0..n-1 in
order; and re-derivation with identical arguments gives an identical
sequence. -/
theorem claim_deriveAnchors_shape (s seed : ℝ) (n : ℕ) :
    deriveAnchors 0 s seed = [] ∧
    (deriveAnchors n s seed).length = n ∧
    (deriveAnchors n s seed).map Metaball.id = List.range n ∧
    deriveAnchors n s seed = deriveAnchors n s seed := by
  refine ⟨by simp [deriveAnchors], ?_, ?_, rfl⟩
  · by_cases hn : n = 0 <;> simp [deriveAnchors, hn]
  · by_cases hn : n = 0
    · simp [deriveAnchors, hn]
    · simp only [deriveAnchors, hn, if_false, List.map_map]
      have hid : ∀ i ∈ List.range n, (Metaball.id ∘ mkBall s seed) i = i :=
        fun i _ => rfl
      rw [List.map_congr_left hid, List.map_id']

/-- Claim C1: with zero morph radius the compiled sequence has no morphology
stage and the displacement stage reads the raw shape buffer SourceGraphic;
with positive morph radius a morphology stage with the configured operator
and radius writes the buffer named morphed, and the displacement stage reads
morphed. -/
theorem claim_morph_conditional (s : TypeSettings) :
    (s.morphRadius = 0 →
      (∀ st ∈ renderFilterContent s, st.isMorphology = false) ∧
      (∀ st ∈ renderFilterContent s, st.isDisplacement = true →
        st.shapeInput = some "SourceGraphic")) ∧
    (0 < s.morphRadius →
      FilterStage.feMorphology s.morphOperator s.morphRadius "morphed"
        ∈ renderFilterContent s ∧
      (∀ st ∈ renderFilterContent s, st.isDisplacement = true →
        st.shapeInput = some "morphed")) := by
  constructor
  · intro h0
    have hlt : ¬ 0 < s.morphRadius := by rw [h0]; norm_num
    constructor
    · intro st hst
      simp only [renderFilterContent, hlt, if_false, List.nil_append,
        List.mem_append, List.mem_cons, List.not_mem_nil, or_false] at hst
      rcases hst with (rfl | rfl | rfl | rfl) | hm
      · rfl
      · rfl
      · rfl
      · rfl
      · exact (materialStages_no_morph_disp s.textureMode st hm).1
    · intro st hst hd
      simp only [renderFilterContent, hlt, if_false, List.nil_append,
        List.mem_append, List.mem_cons, List.not_mem_nil, or_false] at hst
      rcases hst with (rfl | rfl | rfl | rfl) | hm
      · simp [FilterStage.isDisplacement] at hd
      · rfl
      · simp [FilterStage.isDisplacement] at hd
      · simp [FilterStage.isDisplacement] at hd
      · rw [(materialStages_no_morph_disp s.textureMode st hm).2] at hd
        simp at hd
  · intro hpos
    constructor
    · simp [renderFilterContent, hpos]
    · intro st hst hd
      simp only [renderFilterContent, hpos, if_true, List.singleton_append,
        List.mem_append, List.mem_cons, List.not_mem_nil, or_false] at hst
      rcases hst with (rfl | rfl | rfl | rfl | rfl) | hm
      · simp [FilterStage.isDisplacement] at hd
      · simp [FilterStage.isDisplacement] at hd
      · rfl
      · simp [FilterStage.isDisplacement] at hd
      · simp [FilterStage.isDisplacement] at hd
      · rw [(materialStages_no_morph_disp s.textureMode st hm).2] at hd
        simp at hd

/-- Witness for claim C1: the default settings have zero morph radius and
compile with no morphology stage; raising the radius to 3 puts the dilate
morphology stage into the sequence. -/
theorem claim_morph_conditional_witness :
    (∀ st ∈ renderFilterContent DEFAULT_SETTINGS, st.isMorphology = false) ∧
    FilterStage.feMorphology MorphOperator.dilate 3 "morphed"
      ∈ renderFilterContent { DEFAULT_SETTINGS with morphRadius := 3 } :=
  ⟨((claim_morph_conditional DEFAULT_SETTINGS).1 rfl).1,
   ((claim_morph_conditional { DEFAULT_SETTINGS with morphRadius := 3 }).2
      (by norm_num)).1⟩

/-- Claim C5: in neon mode the final stage of the compiled sequence is a
merge of exactly the five inputs glow3, glow2, glow1, gooShape, gooShape in
that order, and glow1, glow2, glow3 are produced by blurring gooShape at the
strictly increasing radii 2, 6, 12. -/
theorem claim_neon_material (s : TypeSettings)
    (h : s.textureMode = TextureMode.neon) :
    (renderFilterContent s).getLast? =
      some (FilterStage.feMerge ["glow3", "glow2", "glow1", "gooShape", "gooShape"]) ∧
    FilterStage.feGaussianBlur "gooShape" 2 "glow1" ∈ renderFilterContent s ∧
    FilterStage.feGaussianBlur "gooShape" 6 "glow2" ∈ renderFilterContent s ∧
    FilterStage.feGaussianBlur "gooShape" 12 "glow3" ∈ renderFilterContent s ∧
    (2 : ℚ) < 6 ∧ (6 : ℚ) < 12 := by
  refine ⟨?_, ?_, ?_, ?_, by norm_num, by norm_num⟩ <;>
    by_cases hm : 0 < s.morphRadius <;>
      simp [renderFilterContent, hm, h, materialStages, List.getLast?]

/-- Witness for claim C5 at the default settings switched to neon mode. -/
theorem claim_neon_material_witness :
    (renderFilterContent { DEFAULT_SETTINGS with textureMode := TextureMode.neon }).getLast? =
      some (FilterStage.feMerge ["glow3", "glow2", "glow1", "gooShape", "gooShape"]) :=
  (claim_neon_material { DEFAULT_SETTINGS with textureMode := TextureMode.neon } rfl).1

/-- The scenario settings of claim C2: no metaballs, zero morph radius,
solid texture, zero blur (all already default except the metaball count). -/
def scenarioA : TypeSettings := { DEFAULT_SETTINGS with numMetaballs := 0 }

/-- Counterexample to claim C2 as stated: at the scenario settings the
compiled sequence has five stages, not four — the solid branch emits a
pass-through merge stage after the contrast remap. -/
theorem claim_scenarioA_counterexample :
    (renderFilterContent scenarioA).length ≠ 4 := by decide

/-- Claim C2 as amended: for every settings record with no metaballs, zero
morph radius, solid texture and zero blur deviation — all other fields
arbitrary — the compiled sequence consists of exactly five stages: noise
generation, displacement reading SourceGraphic, blur, contrast remap, and a
single-input pass-through merge of gooShape; and no metaball circles are
drawn since the anchor list is empty. -/
theorem claim_scenarioA_stages (s : TypeSettings)
    (hn : s.numMetaballs = 0) (hm : s.morphRadius = 0)
    (ht : s.textureMode = TextureMode.solid) (hb : s.blurStdDev = 0) :
    renderFilterContent s =
      [ FilterStage.feTurbulence s.noiseType s.distortionX s.distortionY 2
          s.noiseSeed "noise"
      , FilterStage.feDisplacementMap "SourceGraphic" "noise"
          s.distortionStrength "R" "G" "distorted"
      , FilterStage.feGaussianBlur "distorted" 0 "blurred"
      , FilterStage.feColorMatrix "blurred" (colorMatrixValues s.contrast) "gooShape"
      , FilterStage.feMerge ["gooShape"] ] ∧
    anchorsOf s = [] := by
  have hlt : ¬ 0 < s.morphRadius := by rw [hm]; norm_num
  constructor
  · simp [renderFilterContent, hlt, ht, hb, materialStages]
  · simp [anchorsOf, hn, deriveAnchors]

/-- Witness for the amended claim C2 at the concrete scenario record (the
defaults with the metaball count set to zero). -/
theorem claim_scenarioA_stages_witness :
    renderFilterContent scenarioA =
      [ FilterStage.feTurbulence NoiseType.turbulence 0.02 0.04 2 1 "noise"
      , FilterStage.feDisplacementMap "SourceGraphic" "noise" 30 "R" "G" "distorted"
      , FilterStage.feGaussianBlur "distorted" 0 "blurred"
      , FilterStage.feColorMatrix "blurred" (colorMatrixValues 1) "gooShape"
      , FilterStage.feMerge ["gooShape"] ] ∧
    anchorsOf scenarioA = [] :=
  claim_scenarioA_stages scenarioA rfl rfl rfl rfl

/-- The default settings with the animation speed set to zero. -/
def frozenSettings : TypeSettings := { DEFAULT_SETTINGS with metaballSpeed := 0 }

/-- A concrete anchor whose phase is a quarter turn. -/
noncomputable def probeBall : Metaball :=
  { id := 0, baseX := 50, baseY := 50, r := 30, phase := Real.pi / 2, speed := 1 }

/-- Counterexample to claim C3 as stated: with zero metaball speed the clock
stays at zero after a tick, but an anchor whose phase is a quarter turn is
drawn at x = baseX + 5, so its animated position is not its exact base
position. -/
theorem claim_speed_zero_counterexample :
    animatedPosition probeBall ((clockAfter frozenSettings 1 : ℚ) : ℝ) ≠
      (probeBall.baseX, probeBall.baseY) := by
  have hc : clockAfter frozenSettings 1 = 0 := by
    simp [clockAfter, tickClock, frozenSettings]
  rw [hc]
  simp only [Rat.cast_zero, animatedPosition, probeBall, zero_mul, zero_add,
    Real.sin_pi_div_two, Real.cos_pi_div_two, one_mul, Prod.mk.injEq, ne_eq]
  norm_num

/-- Claim C3 as amended: with zero metaball speed the clock never advances —
it is zero after any number of simulated refresh ticks — so every anchor is
drawn at the constant time-zero position, namely the base position offset by
the fixed phase jitter (baseX + sin(phase) * 5, baseY + cos(phase) * 5); the
position shows no drift across ticks but need not equal the exact base
position. -/
theorem claim_speed_zero_frozen (s : TypeSettings) (h : s.metaballSpeed = 0)
    (n : ℕ) (b : Metaball) :
    clockAfter s n = 0 ∧
    animatedPosition b ((clockAfter s n : ℚ) : ℝ) =
      (b.baseX + Real.sin b.phase * 5, b.baseY + Real.cos b.phase * 5) := by
  have hc : ∀ m, clockAfter s m = 0 := by
    intro m
    induction m with
    | zero => rfl
    | succ k ih => simp [clockAfter, tickClock, h, ih]
  refine ⟨hc n, ?_⟩
  rw [hc n]
  simp [animatedPosition]

/-- Witness for the amended claim C3 at the zero-speed default settings,
three ticks, and a concrete anchor. -/
theorem claim_speed_zero_frozen_witness :
    frozenSettings.metaballSpeed = 0 ∧
    clockAfter frozenSettings 3 = 0 ∧
    animatedPosition probeBall ((clockAfter frozenSettings 3 : ℚ) : ℝ) =
      (probeBall.baseX + Real.sin probeBall.phase * 5,
       probeBall.baseY + Real.cos probeBall.phase * 5) :=
  ⟨rfl, (claim_speed_zero_frozen frozenSettings rfl 3 probeBall).1,
    (claim_speed_zero_frozen frozenSettings rfl 3 probeBall).2⟩

/-- Every anchor field lies in its design range: base coordinates within a
half-spread of the 50 percent center, radius in [20, 80], phase in the first
turn, speed in [0.5, 1]. -/
theorem anchor_bounds_general (n : ℕ) (s seed : ℝ) (hs : 0 ≤ s)
    (a : Metaball) (ha : a ∈ deriveAnchors n s seed) :
    (50 - s / 2 ≤ a.baseX ∧ a.baseX ≤ 50 + s / 2) ∧
    (50 - s / 2 ≤ a.baseY ∧ a.baseY ≤ 50 + s / 2) ∧
    (20 ≤ a.r ∧ a.r ≤ 80) ∧
    (0 ≤ a.phase ∧ a.phase < 2 * Real.pi) ∧
    (0.5 ≤ a.speed ∧ a.speed ≤ 1) := by
  unfold deriveAnchors at ha
  by_cases hn : n = 0
  · simp [hn] at ha
  rw [if_neg hn] at ha
  obtain ⟨i, hi, rfl⟩ := List.mem_map.mp ha
  simp only [mkBall]
  have h1 := pseudoRandom_nonneg (seed * 100 + i)
  have h1l := pseudoRandom_lt_one (seed * 100 + i)
  have h2 := pseudoRandom_nonneg (seed * 200 + i)
  have h2l := pseudoRandom_lt_one (seed * 200 + i)
  have h3 := pseudoRandom_nonneg (seed * 300 + i)
  have h3l := pseudoRandom_lt_one (seed * 300 + i)
  have h4 := pseudoRandom_nonneg (seed * 400 + i)
  have h4l := pseudoRandom_lt_one (seed * 400 + i)
  have hx1 := mul_nonneg h1 hs
  have hx1l := mul_le_mul_of_nonneg_right h1l.le hs
  have hx2 := mul_nonneg h2 hs
  have hx2l := mul_le_mul_of_nonneg_right h2l.le hs
  have hpi := Real.pi_pos
  have hphase := mul_pos (by linarith : (0 : ℝ) < 1 - pseudoRandom (seed * 400 + i)) hpi
  refine ⟨⟨by nlinarith, by nlinarith⟩, ⟨by nlinarith, by nlinarith⟩,
    ⟨by nlinarith, by nlinarith⟩, ⟨by nlinarith, by nlinarith⟩,
    ⟨by nlinarith, by nlinarith⟩⟩

/-- Claim C7: for nonnegative spread every derived anchor has base
coordinates within spread/2 of 50, radius in [20, 80], phase in [0, 2π), and
speed in [0.5, 1]; in particular with 5 metaballs, spread 40 and seed 1 all
anchors have base coordinates within [30, 70]. -/
theorem claim_anchor_bounds :
    (∀ (n : ℕ) (s seed : ℝ), 0 ≤ s → ∀ a ∈ deriveAnchors n s seed,
      (50 - s / 2 ≤ a.baseX ∧ a.baseX ≤ 50 + s / 2) ∧
      (50 - s / 2 ≤ a.baseY ∧ a.baseY ≤ 50 + s / 2) ∧
      (20 ≤ a.r ∧ a.r ≤ 80) ∧
      (0 ≤ a.phase ∧ a.phase < 2 * Real.pi) ∧
      (0.5 ≤ a.speed ∧ a.speed ≤ 1)) ∧
    (∀ a ∈ deriveAnchors 5 40 1,
      (30 ≤ a.baseX ∧ a.baseX ≤ 70) ∧ (30 ≤ a.baseY ∧ a.baseY ≤ 70)) := by
  refine ⟨fun n s seed hs a ha => anchor_bounds_general n s seed hs a ha, ?_⟩
  intro a ha
  have h := anchor_bounds_general 5 40 1 (by norm_num) a ha
  refine ⟨⟨?_, ?_⟩, ⟨?_, ?_⟩⟩ <;>
    linarith [h.1.1, h.1.2, h.2.1.1, h.2.1.2]

/-- The first anchor of the scenario-C derivation is a member of it. -/
theorem mkBall_mem_five : mkBall 40 1 0 ∈ deriveAnchors 5 40 1 := by
  unfold deriveAnchors
  rw [if_neg (by norm_num)]
  exact List.mem_map_of_mem _ (List.mem_range.mpr (by norm_num))

/-- Witness for claim C7 at the first scenario-C anchor. -/
theorem claim_anchor_bounds_witness :
    (30 ≤ (mkBall 40 1 0).baseX ∧ (mkBall 40 1 0).baseX ≤ 70) ∧
    (20 ≤ (mkBall 40 1 0).r ∧ (mkBall 40 1 0).r ≤ 80) :=
  ⟨(claim_anchor_bounds.2 (mkBall 40 1 0) mkBall_mem_five).1,
   (claim_anchor_bounds.1 5 40 1 (by norm_num) (mkBall 40 1 0)
      mkBall_mem_five).2.2.1⟩

/-- Claim C10: the speed multiplier and the horizontal shift of every derived
anchor come from the same draw, so baseX - 50 = (2 * speed - 1.5) * spread
always holds, and for nonzero spread the speed is determined by baseX. -/
theorem claim_speed_position_coupled (n : ℕ) (s seed : ℝ) (a : Metaball)
    (ha : a ∈ deriveAnchors n s seed) :
    a.baseX - 50 = (2 * a.speed - 1.5) * s ∧
    (s ≠ 0 → a.speed = ((a.baseX - 50) / s + 1.5) / 2) := by
  unfold deriveAnchors at ha
  by_cases hn : n = 0
  · simp [hn] at ha
  rw [if_neg hn] at ha
  obtain ⟨i, hi, rfl⟩ := List.mem_map.mp ha
  simp only [mkBall]
  constructor
  · ring
  · intro hs
    field_simp
    ring

/-- Witness for claim C10 at the first scenario-C anchor with spread 40. -/
theorem claim_speed_position_coupled_witness :
    (mkBall 40 1 0).baseX - 50 = (2 * (mkBall 40 1 0).speed - 1.5) * 40 ∧
    (mkBall 40 1 0).speed = (((mkBall 40 1 0).baseX - 50) / 40 + 1.5) / 2 :=
  ⟨(claim_speed_position_coupled 5 40 1 (mkBall 40 1 0) mkBall_mem_five).1,
   (claim_speed_position_coupled 5 40 1 (mkBall 40 1 0) mkBall_mem_five).2
      (by norm_num)⟩

end TypeGen
